import Mathlib

/-!
# Verification of the trade-state reconciliation and confirmation engine

Shallow embedding of the core of the `AI_Program_okex` repository:

* `TradeRow`, `create_trade`, `close_trade`, `get_open_trades`,
  `get_trade_statistics` — the SQLite ledger (`src/data/database.py`).
* `sync_filled_orders_from_api` — the fill synchronizer
  (`src/core/order_sync.py`).
* `sync_database_with_positions` — the position reconciler
  (`src/core/position_manager.py`).
* `execute_trade` and its confirmation gate (`src/core/trading_executor.py`).
* `cadence_backoff_step` and `run_cycle_trace` — the exponential-backoff
  cadence logic and the control skeleton of `run_cycle` (`src/main.py`).
* `init_mcp_from_okx_trades` — the historical fill pairing routine
  (`src/mcp/init_from_api.py`).

Machine floats of the Python source are modelled as `ℚ`, timestamps as `Nat`
(`datetime` ordering is order-isomorphic to the timestamp), SQLite rows as a
structure whose fields are exactly the columns of the `trades` table, and
Python `dict.get` on such a row as a total lookup function that returns the
default for any key that is not a column.  Configuration values are taken
from `src/config/settings.py`.
-/

namespace OkexBot

/-- A row of the `trades` table as created by `TradeDatabase._init_database`
(`src/data/database.py`).  Fields are the columns relevant to the ledger
operations; `side` is nullable (`create_trade` stores NULL for a signal other
than BUY/SELL), statuses are stored as raw strings (`"OPEN"`, `"CLOSED"`, and
the lowercase `"closed"` written by the order synchronizer). -/
structure TradeRow where
  id : Nat
  symbol : String
  signal : String
  side : Option String
  entry_price : ℚ
  exit_price : Option ℚ
  quantity : ℚ
  leverage : Int
  open_time : Nat
  close_time : Option Nat
  holding_duration_seconds : Option Int
  realized_pnl : Option ℚ
  pnl_percent : Option ℚ
  entry_order_id : Option String
  exit_order_id : Option String
  stop_loss_price : Option ℚ
  take_profit_price : Option ℚ
  ai_confidence : Option String
  ai_reason : Option String
  status : String
  notes : String
  created_at : Nat
  updated_at : Nat
  deriving DecidableEq, Repr, Inhabited

/-- The ledger: the list of rows of the `trades` table, in rowid order. -/
abbrev Ledger := List TradeRow

/-- The columns of the `trades` table (the CREATE TABLE statement in
`TradeDatabase._init_database`).  Note that the open and close times are the
columns `open_time` and `close_time`: there is no `entry_time` and no
`exit_time` column. -/
def tradesColumns : List String :=
  ["id", "symbol", "signal", "side", "entry_price", "exit_price", "quantity",
   "leverage", "open_time", "close_time", "holding_duration_seconds",
   "realized_pnl", "pnl_percent", "entry_order_id", "exit_order_id",
   "stop_loss_price", "take_profit_price", "ai_confidence", "ai_reason",
   "ai_think", "market_data", "status", "notes", "created_at", "updated_at"]

/-- Python `row.get(key, default)` for a numeric value on a ledger row
produced by `get_open_trades` (`dict(sqlite3.Row)`): the dict keys are exactly
the columns of the `trades` table, so a key that is not a column — such as
`"amount"`, read by `PositionManager.sync_database_with_positions` — yields
`none` and the caller falls back to its default. -/
def TradeRow.getQ (r : TradeRow) (key : String) : Option ℚ :=
  if key = "entry_price" then some r.entry_price
  else if key = "exit_price" then r.exit_price
  else if key = "quantity" then some r.quantity
  else if key = "realized_pnl" then r.realized_pnl
  else if key = "pnl_percent" then r.pnl_percent
  else if key = "stop_loss_price" then r.stop_loss_price
  else if key = "take_profit_price" then r.take_profit_price
  else none

/-- Python `row.get(key, default)` for a time-valued column on a ledger row.
The key `"entry_time"`, read by `OrderSync.sync_filled_orders_from_api`, is
not a column of the `trades` table (the column is `open_time`), so the lookup
yields `none` and the code path `if not entry_time_str: continue` is taken
for every row. -/
def TradeRow.getTime (r : TradeRow) (key : String) : Option Nat :=
  if key = "open_time" then some r.open_time
  else if key = "close_time" then r.close_time
  else none

/-- The free-form AI decision payload handed to the executor: the dict keys
read from it by `trading_executor.py` and `database.py` (`decision.get(...)`,
with `none` modelling an absent key). -/
structure Decision where
  signal : String
  symbol : String
  amount : Option ℚ
  stop_loss : Option ℚ
  take_profit : Option ℚ
  confidence : Option String
  reason : Option String
  deriving DecidableEq, Repr

/-- A decision dict holding only a `reason` key, as built inline by
`PositionManager.sync_database_with_positions`. -/
def reasonOnlyDecision (s : String) : Decision :=
  { signal := "", symbol := "", amount := none, stop_loss := none,
    take_profit := none, confidence := none, reason := some s }

/-- `side = 'long' if signal == 'BUY' else 'short' if signal == 'SELL' else None`
(`TradeDatabase.create_trade`). -/
def sideOfSignal (signal : String) : Option String :=
  if signal = "BUY" then some "long"
  else if signal = "SELL" then some "short"
  else none

/-- The AUTOINCREMENT rowid for a new `trades` row. -/
def nextTradeId (l : Ledger) : Nat :=
  l.foldr (fun r m => max r.id m) 0 + 1

/-- `TradeDatabase.create_trade`: INSERT a new row with `status='OPEN'`,
stop-loss / take-profit / ai fields from the decision dict, and both
timestamps set to `now`.  Returns the ledger and `cursor.lastrowid`. -/
def create_trade (l : Ledger) (symbol signal : String)
    (entry_price quantity : ℚ) (leverage : Int) (ai_decision : Decision)
    (now : Nat) : Ledger × Nat :=
  let tid := nextTradeId l
  let row : TradeRow :=
    { id := tid, symbol := symbol, signal := signal,
      side := sideOfSignal signal, entry_price := entry_price,
      exit_price := none, quantity := quantity, leverage := leverage,
      open_time := now, close_time := none,
      holding_duration_seconds := none, realized_pnl := none,
      pnl_percent := none, entry_order_id := none, exit_order_id := none,
      stop_loss_price := ai_decision.stop_loss,
      take_profit_price := ai_decision.take_profit,
      ai_confidence := ai_decision.confidence,
      ai_reason := ai_decision.reason, status := "OPEN", notes := "",
      created_at := now, updated_at := now }
  (l ++ [row], tid)

/-- `pnl_percent = (realized_pnl / (entry_price * quantity)) * 100 if
entry_price and quantity else 0` (`TradeDatabase.close_trade`). -/
def pnlPercentCalc (row : TradeRow) (realized_pnl : ℚ) : ℚ :=
  if row.entry_price ≠ 0 ∧ row.quantity ≠ 0 then
    realized_pnl / (row.entry_price * row.quantity) * 100
  else 0

/-- The `notes` value written by `TradeDatabase.close_trade`: the AI reason
when a decision dict was passed, the empty string otherwise. -/
def closeNote : Option Decision → String
  | some d => "AI平仓理由: " ++ d.reason.getD "N/A"
  | none => ""

/-- The UPDATE applied by `TradeDatabase.close_trade` to the row with the
matching id: status becomes `'CLOSED'`, exit price, close time, duration,
realized pnl, pnl percent and notes are set. -/
def closeRow (r : TradeRow) (exit_price realized_pnl pnl_percent : ℚ)
    (duration : Int) (note : String) (now : Nat) : TradeRow :=
  { r with exit_price := some exit_price, close_time := some now,
           holding_duration_seconds := some duration,
           realized_pnl := some realized_pnl,
           pnl_percent := some pnl_percent, status := "CLOSED",
           notes := note, updated_at := now }

/-- `TradeDatabase.close_trade`: SELECT the row by id (if absent, print and
return); compute duration and pnl percent from the selected row; UPDATE every
row with that id. -/
def close_trade (l : Ledger) (trade_id : Nat) (exit_price realized_pnl : ℚ)
    (ai_decision : Option Decision) (now : Nat) : Ledger :=
  match l.find? (fun r => r.id == trade_id) with
  | none => l
  | some row =>
    l.map (fun r =>
      if r.id == trade_id then
        closeRow r exit_price realized_pnl (pnlPercentCalc row realized_pnl)
          ((now : Int) - (row.open_time : Int)) (closeNote ai_decision) now
      else r)

/-- `TradeDatabase.get_open_trades` (no symbol filter):
`SELECT * FROM trades WHERE status = 'OPEN'`. -/
def get_open_trades (l : Ledger) : List TradeRow :=
  l.filter (fun r => r.status == "OPEN")

/-- The dictionary returned by `TradeDatabase.get_trade_statistics`. -/
structure TradeStats where
  total_trades : Nat
  closed_trades : Nat
  open_trades : Nat
  winning_trades : Nat
  losing_trades : Nat
  win_rate : ℚ
  total_pnl : ℚ
  deriving DecidableEq, Repr

/-- `TradeDatabase.get_trade_statistics`: counts filter on the exact string
`'CLOSED'`; the `open_trades` figure is `total_trades - closed_trades`, not a
count of rows with status `'OPEN'`. -/
def get_trade_statistics (l : Ledger) : TradeStats :=
  let total := l.length
  let closedRows := l.filter (fun r => r.status == "CLOSED")
  let closed := closedRows.length
  let winning := (closedRows.filter (fun r => decide (0 < r.realized_pnl.getD 0))).length
  { total_trades := total, closed_trades := closed,
    open_trades := total - closed, winning_trades := winning,
    losing_trades := closed - winning,
    win_rate := if 0 < closed then (winning : ℚ) / (closed : ℚ) * 100 else 0,
    total_pnl := closedRows.foldr (fun r a => r.realized_pnl.getD 0 + a) 0 }

/-! ## Fill synchronizer (`src/core/order_sync.py`) -/

/-- An executed fill returned by `exchange.fetch_my_trades`, as read by
`OrderSync.sync_filled_orders_from_api` (`side`, `price`, `amount`,
`timestamp`). -/
structure ApiOrder where
  side : String
  price : ℚ
  amount : ℚ
  timestamp : Nat
  deriving DecidableEq, Repr

/-- The hard-coded symbol list iterated by
`OrderSync.sync_filled_orders_from_api`. -/
def orderSyncSymbols : List String :=
  ["BTC/USDT:USDT", "ETH/USDT:USDT", "SOL/USDT:USDT",
   "BNB/USDT:USDT", "DOGE/USDT:USDT", "XRP/USDT:USDT"]

/-- The columns named in the SET clause of the UPDATE in
`OrderSync.sync_filled_orders_from_api`.  `exit_time` is not a column of the
`trades` table. -/
def orderSyncUpdateColumns : List String :=
  ["status", "exit_price", "exit_time", "realized_pnl"]

/-- The row transformation specified by the SET clause of the UPDATE in
`OrderSync.sync_filled_orders_from_api`: status becomes the lowercase string
`'closed'` and exit price / realized pnl are set.  (The clause also writes an
`exit_time` value, but no such column exists, so there is no field for it;
see `runOrderSyncUpdate` for the resulting SQL semantics.) -/
def orderSyncCloseSet (r : TradeRow) (exit_price realized_pnl : ℚ) : TradeRow :=
  { r with status := "closed", exit_price := some exit_price,
           realized_pnl := some realized_pnl }

/-- Executing the UPDATE of `OrderSync.sync_filled_orders_from_api` against
the `trades` schema: SQLite refuses to prepare a statement that names a
column absent from the table, so the statement raises
`OperationalError: no such column: exit_time` instead of updating. -/
def runOrderSyncUpdate (l : Ledger) (trade_id : Nat)
    (exit_price realized_pnl : ℚ) : Except String Ledger :=
  if orderSyncUpdateColumns.all (fun c => tradesColumns.contains c) then
    Except.ok (l.map (fun r =>
      if r.id == trade_id then orderSyncCloseSet r exit_price realized_pnl
      else r))
  else Except.error "sqlite3.OperationalError: no such column: exit_time"

/-- `is_close_order` of the matching loop: a sell closes a long, a buy closes
a short (`db_side` read from the row's nullable `side` column). -/
def isCloseOrder (db_side : Option String) (order_side : String) : Bool :=
  (db_side == some "long" && order_side == "sell") ||
  (db_side == some "short" && order_side == "buy")

/-- The condition under which the inner loop of
`OrderSync.sync_filled_orders_from_api` stops at a ledger row: the symbol
matches, the row's `entry_time` value is non-empty (it never is, because the
dict has no `entry_time` key — the column is `open_time`), the order is a
closing order, and it postdates the entry. -/
def orderMatchesTrade (symbol : String) (o : ApiOrder) (t : TradeRow) : Bool :=
  t.symbol == symbol &&
    match t.getTime "entry_time" with
    | none => false
    | some entry_time => isCloseOrder t.side o.side && decide (entry_time < o.timestamp)

/-- The per-order loop of `OrderSync.sync_filled_orders_from_api` for one
symbol: find the first matching open row, compute the realized pnl, run the
UPDATE; a raised SQL error is caught by the per-symbol handler, which keeps
the work done so far and skips the symbol's remaining orders. -/
def syncOrdersLoop (symbol : String) (open_trades : List TradeRow) :
    List ApiOrder → Ledger → Nat → Ledger × Nat
  | [], l, n => (l, n)
  | o :: rest, l, n =>
    match open_trades.find? (orderMatchesTrade symbol o) with
    | none => syncOrdersLoop symbol open_trades rest l n
    | some t =>
      let realized_pnl :=
        if t.side == some "long" then (o.price - t.entry_price) * o.amount
        else (t.entry_price - o.price) * o.amount
      match runOrderSyncUpdate l t.id o.price realized_pnl with
      | Except.ok l2 => syncOrdersLoop symbol open_trades rest l2 (n + 1)
      | Except.error _ => (l, n)

/-- `orders.sort(key=lambda x: x.get('timestamp', 0))`. -/
def sortOrders (os : List ApiOrder) : List ApiOrder :=
  os.insertionSort (fun a b => a.timestamp ≤ b.timestamp)

/-- One iteration of the symbol loop of
`OrderSync.sync_filled_orders_from_api`: fetch and sort the symbol's fills,
snapshot the open trades, then run the per-order loop. -/
def syncOneSymbol (fetch : String → List ApiOrder) (acc : Ledger × Nat)
    (symbol : String) : Ledger × Nat :=
  let orders := sortOrders (fetch symbol)
  if orders.isEmpty then acc
  else
    let open_trades := get_open_trades acc.1
    syncOrdersLoop symbol open_trades orders acc.1 acc.2

/-- The ledger effect and the internal `synced_count` of
`OrderSync.sync_filled_orders_from_api`. -/
def syncFilledOrdersRun (l : Ledger) (fetch : String → List ApiOrder) :
    Ledger × Nat :=
  orderSyncSymbols.foldl (syncOneSymbol fetch) (l, 0)

/-- `OrderSync.sync_filled_orders_from_api`.  The Python function has no
`return` statement: it falls off the end and returns `None` (modelled as the
`none` in the second component); the internally computed `synced_count` is
discarded. -/
def sync_filled_orders_from_api (l : Ledger) (fetch : String → List ApiOrder) :
    Ledger × Option Nat :=
  ((syncFilledOrdersRun l fetch).1, none)

/-! ## Position reconciler (`src/core/position_manager.py`) -/

/-- A position dict as built by `DataFetcher.get_all_positions`
(`src/data/fetcher.py`): symbol in ccxt form, side, contract size, entry
price, unrealized pnl. -/
structure RemotePosition where
  symbol : String
  side : String
  size : ℚ
  entry_price : ℚ
  unrealized_pnl : ℚ
  deriving DecidableEq, Repr

/-- `DataFetcher` (`src/data/fetcher.py`) defines no method
`get_current_price`, so the call
`self.data_fetcher.get_current_price(symbol_coin)` in
`PositionManager.sync_database_with_positions` raises `AttributeError` on
every invocation and the surrounding `except` branch runs: the lookup yields
no price. -/
def get_current_price_query (_symbol_coin : String) : Option ℚ := none

/-- The exit price and realized pnl computed for one open row by
`PositionManager.sync_database_with_positions` before it calls
`close_trade`.  On a successful price fetch the pnl is computed against
`trade.get('amount', 0)` — always `0`, because the row key is `quantity` —
and on the (in fact unavoidable) price-fetch failure the code falls back to
`exit_price = trade.get('entry_price', 0)` and `realized_pnl = 0`. -/
def reconCloseArgs (t : TradeRow) : ℚ × ℚ :=
  match get_current_price_query (t.symbol.replace "/USDT:USDT" "") with
  | some price =>
    let exit_price := price
    let entry_price := (t.getQ "entry_price").getD exit_price
    let amount := (t.getQ "amount").getD 0
    let pnl :=
      if t.side == some "long" then (exit_price - entry_price) * amount
      else (entry_price - exit_price) * amount
    (exit_price, pnl)
  | none => ((t.getQ "entry_price").getD 0, 0)

/-- One closure performed by `PositionManager.sync_database_with_positions`:
`close_trade` with the computed exit price / pnl and an inline
`{'reason': note}` decision dict. -/
def reconClose (note : String) (now : Nat) (l : Ledger) (t : TradeRow) : Ledger :=
  close_trade l t.id (reconCloseArgs t).1 (reconCloseArgs t).2
    (some (reasonOnlyDecision note)) now

/-- `PositionManager.sync_database_with_positions`: snapshot the open trades;
if none, return.  With no current position, close every open trade; with a
current position, close every open trade whose symbol differs from the
position's. -/
def sync_database_with_positions (l : Ledger)
    (current_position : Option RemotePosition) (now : Nat) : Ledger :=
  let open_trades := get_open_trades l
  if open_trades.isEmpty then l
  else
    match current_position with
    | none => open_trades.foldl (reconClose "系统同步：实际无持仓" now) l
    | some pos =>
      (open_trades.filter (fun t => t.symbol != pos.symbol)).foldl
        (reconClose "系统同步：币种不匹配" now) l

/-- The primary-key column of a ledger: the ids of its rows.  SQLite's
`INTEGER PRIMARY KEY AUTOINCREMENT` keeps these distinct. -/
def idsOf (l : Ledger) : List Nat := l.map (fun r => r.id)

/-- The closed version of an open row `r` produced by the reconciler: since
the price lookup always fails (`get_current_price_query`), the exit price is
the row's own entry price and the realized pnl is `0`. -/
def reconClosedRow (note : String) (now : Nat) (r : TradeRow) : TradeRow :=
  closeRow r r.entry_price 0 (pnlPercentCalc r 0)
    ((now : Int) - (r.open_time : Int))
    (closeNote (some (reasonOnlyDecision note))) now

/-- Written from the claim's words, for comparison with the code: "realized
pnl = (exit − entry) × qty for long, (entry − exit) × qty for short". -/
def specRealizedPnl (side : Option String) (entry exit_price qty : ℚ) : ℚ :=
  if side = some "long" then (exit_price - entry) * qty
  else (entry - exit_price) * qty

/-! ## Trading executor and confirmation gate (`src/core/trading_executor.py`)

Configuration values from `TRADING_CONFIG` in `src/config/settings.py`:
`test_mode = False` (so opens and closes go through the real-trade paths,
whose ledger writes are `create_trade` / `close_trade`),
`require_double_confirmation = True`, `leverage = 10`. -/

/-- `TRADING_CONFIG['amounts']` (`src/config/settings.py`). -/
def TRADING_CONFIG_amounts (coin : String) : Option ℚ :=
  if coin = "BTC" then some (1 / 100)
  else if coin = "ETH" then some (1 / 10)
  else if coin = "XRP" then some (1 / 10)
  else if coin = "SOL" then some (1 / 10)
  else if coin = "BNB" then some 1
  else none

/-- Python `s.split(sep)[0]` for a one-character separator: the prefix of
`s` before the first occurrence of the separator (the whole string when the
separator does not occur).  Implemented over the character list so that it
evaluates inside proofs. -/
def takeBeforeChar (s : String) (c : Char) : String :=
  String.mk (s.data.takeWhile (fun a => a != c))

/-- Python `c in s` for a one-character needle. -/
def strContainsChar (s : String) (c : Char) : Bool :=
  s.data.any (fun a => a == c)

/-- The symbol cleanup in `TradingExecutor.execute_trade`:
`if ':' in symbol: symbol = symbol.split(':')[0]` then
`if '/' in symbol: symbol = symbol.split('/')[0]`. -/
def cleanSymbolCoin (s : String) : String :=
  let s1 := if strContainsChar s ':' then takeBeforeChar s ':' else s
  if strContainsChar s1 '/' then takeBeforeChar s1 '/' else s1

/-- A pending-confirmation record stored in
`TradingExecutor.pending_open_decisions`:
`{'signal': ..., 'cycle': ..., 'decision': ...}`. -/
structure PendingSignal where
  signal : String
  cycle : Nat
  decision : Decision
  deriving DecidableEq, Repr

/-- A Python dict with string keys, in insertion order. -/
abbrev StrDict (α : Type) := List (String × α)

/-- Dict lookup `m[k]` / `k in m`. -/
def dictLookup {α : Type} (m : StrDict α) (k : String) : Option α :=
  (m.find? (fun kv => kv.1 == k)).map (fun kv => kv.2)

/-- Dict assignment `m[k] = v`: overwrite in place, or append a new key. -/
def dictInsert {α : Type} (m : StrDict α) (k : String) (v : α) : StrDict α :=
  if m.any (fun kv => kv.1 == k) then
    m.map (fun kv => if kv.1 == k then (k, v) else kv)
  else m ++ [(k, v)]

/-- Dict deletion `del m[k]`. -/
def dictErase {α : Type} (m : StrDict α) (k : String) : StrDict α :=
  m.filter (fun kv => kv.1 != k)

/-- The executor state threaded through `TradingExecutor`: the per-symbol
pending map, the cycle number set by `run_cycle`, and the ledger. -/
structure ExecState where
  pending_open_decisions : StrDict PendingSignal
  current_cycle : Nat
  ledger : Ledger
  deriving DecidableEq, Repr

/-- The external exchange responses consumed during one executor call:
the result of `exchange.create_order` (`none` models a raised exception, the
order id otherwise), the position returned by `get_position_by_symbol`, and
the wall clock used for database timestamps. -/
structure ExchangeEnv where
  create_order_result : Option String
  position_by_symbol : Option RemotePosition
  now : Nat
  deriving DecidableEq, Repr

/-- `TradingExecutor._execute_open_position` with `test_mode = False`, i.e.
`_execute_real_open`: place the market order (an exception is caught and
yields `None`), then `create_trade` with the decision's amount (default from
`TRADING_CONFIG['amounts']`, else `0.01`) and the configured leverage. -/
def execute_open_position (st : ExecState) (signal symbol : String)
    (decision : Decision) (current_price : ℚ) (env : ExchangeEnv) :
    ExecState × Option Nat :=
  match env.create_order_result with
  | none => (st, none)
  | some _order_id =>
    let coin := takeBeforeChar symbol '/'
    let amount := decision.amount.getD ((TRADING_CONFIG_amounts coin).getD (1 / 100))
    let res := create_trade st.ledger symbol signal current_price amount 10
      decision env.now
    ({ st with ledger := res.1 }, some res.2)

/-- `TradingExecutor._execute_with_confirmation`: with a pending record for
the coin, an identical signal deletes the record and opens; a different
signal overwrites the record with the new signal and cycle and returns
`None`; with no pending record, one is created and `None` is returned. -/
def execute_with_confirmation (st : ExecState)
    (signal symbol_coin symbol_full : String) (decision : Decision)
    (current_price : ℚ) (env : ExchangeEnv) : ExecState × Option Nat :=
  match dictLookup st.pending_open_decisions symbol_coin with
  | some pending =>
    if pending.signal == signal then
      let m2 := dictErase st.pending_open_decisions symbol_coin
      let st2 := { st with pending_open_decisions := m2 }
      execute_open_position st2 signal symbol_full decision current_price env
    else
      let p : PendingSignal :=
        { signal := signal, cycle := st.current_cycle, decision := decision }
      let m2 := dictInsert st.pending_open_decisions symbol_coin p
      ({ st with pending_open_decisions := m2 }, none)
  | none =>
      let p : PendingSignal :=
        { signal := signal, cycle := st.current_cycle, decision := decision }
      let m2 := dictInsert st.pending_open_decisions symbol_coin p
      ({ st with pending_open_decisions := m2 }, none)

/-- `TradingExecutor._execute_close_position` with `test_mode = False`, i.e.
`_execute_real_close`: look up the live position (absent ⇒ return), require a
positive size, place the closing order, and if a trade id is tracked, close
that ledger row at the current price with the position's unrealized pnl. -/
def execute_close_position (st : ExecState) (_symbol : String)
    (decision : Decision) (current_price : ℚ) (trade_id : Option Nat)
    (env : ExchangeEnv) : ExecState :=
  match env.position_by_symbol with
  | none => st
  | some pos =>
    if pos.size ≤ 0 then st
    else
      match env.create_order_result with
      | none => st
      | some _ =>
        match trade_id with
        | none => st
        | some tid =>
          let l2 :=
            close_trade st.ledger tid current_price pos.unrealized_pnl
              (some decision) env.now
          { st with ledger := l2 }

/-- `TradingExecutor.execute_trade`: a `HOLD` signal or symbol `NONE` returns
the current trade id unchanged (the pending map is untouched); `BUY`/`SELL`
goes through the confirmation gate (`require_double_confirmation = True`);
`CLOSE` closes and returns `None`; anything else returns the current trade
id. -/
def execute_trade (st : ExecState) (decision : Decision) (current_price : ℚ)
    (current_trade_id : Option Nat) (env : ExchangeEnv) :
    ExecState × Option Nat :=
  let signal := decision.signal
  let symbol_coin0 := decision.symbol
  if signal == "HOLD" || symbol_coin0 == "NONE" then (st, current_trade_id)
  else
    let symbol_coin := cleanSymbolCoin symbol_coin0
    let symbol_full := symbol_coin ++ "/USDT:USDT"
    if signal == "BUY" || signal == "SELL" then
      execute_with_confirmation st signal symbol_coin symbol_full decision
        current_price env
    else if signal == "CLOSE" then
      (execute_close_position st symbol_full decision current_price
        current_trade_id env, none)
    else (st, current_trade_id)

/-- The per-cycle inputs of the execution step of `run_cycle`: the AI
decision, the coin's current price from the cycle's market data, and the
exchange responses. -/
structure CycleInput where
  decision : Decision
  price : ℚ
  env : ExchangeEnv
  deriving Repr

/-- Step 9 of `SimpleAITradingBot.run_cycle` (`src/main.py`): only when the
decision's signal is not `HOLD` does the orchestrator set the executor's
cycle number and call `execute_trade`, storing the returned trade id. -/
def mainExecuteStep (cycle : Nat) (st : ExecState) (tid : Option Nat)
    (inp : CycleInput) : ExecState × Option Nat :=
  if inp.decision.signal != "HOLD" then
    execute_trade { st with current_cycle := cycle } inp.decision inp.price
      tid inp.env
  else (st, tid)

/-- Consecutive cycles of the execution step, with the cycle counter
incremented between cycles as `run_cycle` does. -/
def runDecisionCycles :
    ExecState → Option Nat → Nat → List CycleInput → ExecState × Option Nat
  | st, tid, _, [] => (st, tid)
  | st, tid, cycle, inp :: rest =>
    let r := mainExecuteStep cycle st tid inp
    runDecisionCycles r.1 r.2 (cycle + 1) rest

/-! ## Cadence controller (`src/main.py`, step 7 of `run_cycle`) -/

/-- The backoff counters of `SimpleAITradingBot`: `consecutive_holds` and
`skip_cycles`. -/
structure CadenceState where
  consecutive_holds : Nat
  skip_cycles : Nat
  deriving DecidableEq, Repr

/-- Step 7 of `run_cycle`: on `HOLD` with no open position and backoff
enabled, increment `consecutive_holds` and, once it reaches the threshold,
set `skip_cycles = min(2 ** (n - threshold + 1), max_skip)` (below the
threshold `skip_cycles` is left as it was); any other combination resets
both counters to zero.  `threshold` and `max_skip` are the configuration
reads `TRADING_CONFIG.get('backoff_threshold', 3)` and
`TRADING_CONFIG.get('backoff_max_skip', 8)`. -/
def cadence_backoff_step (threshold max_skip : Nat) (backoff_enabled : Bool)
    (st : CadenceState) (signal : String) (has_position : Bool) :
    CadenceState :=
  if signal == "HOLD" && !has_position && backoff_enabled then
    let ch := st.consecutive_holds + 1
    if threshold ≤ ch then
      { consecutive_holds := ch,
        skip_cycles := min (2 ^ (ch - threshold + 1)) max_skip }
    else
      { consecutive_holds := ch, skip_cycles := st.skip_cycles }
  else
    { consecutive_holds := 0, skip_cycles := 0 }

/-- The `skip_cycles` values produced by `n` successive HOLD-with-no-position
cycles of the cadence logic. -/
def cadenceSkips (threshold max_skip : Nat) :
    Nat → CadenceState → List Nat
  | 0, _ => []
  | n + 1, st =>
    let st2 := cadence_backoff_step threshold max_skip true st "HOLD" false
    st2.skip_cycles :: cadenceSkips threshold max_skip n st2

/-! ## The cycle skeleton (`SimpleAITradingBot.run_cycle`) -/

/-- The observable steps of one `run_cycle` invocation, in program order. -/
inductive CycleStep
  | marketData
  | accountBalance
  | fetchPositions
  | fillSync
  | mcpReload
  | reconcile
  | aiDecision
  | cadenceUpdate
  | executeDecision
  deriving DecidableEq, Repr

/-- Python `x > y` where `x` may be `None`: comparing `None` with an `int`
raises `TypeError` in Python 3. -/
def pyGtNat : Option Nat → Nat → Except String Bool
  | none, _ => Except.error "TypeError: NoneType is not comparable with int"
  | some n, m => Except.ok (decide (m < n))

/-- The control skeleton of `SimpleAITradingBot.run_cycle`: if `skip_cycles`
is positive it is decremented and the method returns before any other step
(lines 102-108 of `src/main.py`); otherwise the steps run in program order —
market data, balance, positions, fill sync — after which the statement
`if synced_count > 0:` compares the fill sync's `None` return with `0`; the
raised `TypeError` is caught by the cycle-level handler, ending the cycle, so
the later steps (reconcile, AI decision, cadence, execute) are listed only
under the unreachable `Except.ok` branch.  External data fetches are assumed
to succeed (their failure would end the cycle even earlier). -/
def run_cycle_trace (skip_cycles : Nat) (l : Ledger)
    (fetch : String → List ApiOrder) : Nat × List CycleStep :=
  if 0 < skip_cycles then
    (skip_cycles - 1, [])
  else
    let sync_result := sync_filled_orders_from_api l fetch
    match pyGtNat sync_result.2 0 with
    | Except.error _ =>
      (0, [CycleStep.marketData, CycleStep.accountBalance,
           CycleStep.fetchPositions, CycleStep.fillSync])
    | Except.ok b =>
      let reload := if b then [CycleStep.mcpReload] else []
      (0, [CycleStep.marketData, CycleStep.accountBalance,
           CycleStep.fetchPositions, CycleStep.fillSync] ++ reload ++
          [CycleStep.reconcile, CycleStep.aiDecision,
           CycleStep.cadenceUpdate, CycleStep.executeDecision])

/-! ## Historical fill pairing (`src/mcp/init_from_api.py`) -/

/-- A fill as read by `init_mcp_from_okx_trades`: ccxt `side`, the OKX
`posSide`, price, amount, timestamp, and `fillPnl` (zero ⇔ opening fill). -/
structure OkxFill where
  side : String
  posSide : String
  price : ℚ
  amount : ℚ
  timestamp : Nat
  fillPnl : ℚ
  deriving DecidableEq, Repr

/-- The per-`posSide` record of the most recent unconsumed opening fill
(`open_trades[pos_side]` in `init_mcp_from_okx_trades`). -/
structure OpenFillInfo where
  entry_price : ℚ
  amount : ℚ
  timestamp : Nat
  side : String
  deriving DecidableEq, Repr

/-- The trade information recorded into the MCP memory (not the ledger) for
one paired open/close fill couple. -/
structure McpTradeInfo where
  symbol : String
  side : String
  entry_price : ℚ
  exit_price : ℚ
  amount : ℚ
  pnl_percent : ℚ
  realized_pnl : ℚ
  entry_time : Nat
  exit_time : Nat
  deriving DecidableEq, Repr

/-- The record built by `init_mcp_from_okx_trades` when a closing fill `f`
is paired with the stored opening fill `e`. -/
def initRecordOf (symbol : String) (e : OpenFillInfo) (f : OkxFill) :
    McpTradeInfo :=
  { symbol := takeBeforeChar symbol '/', side := f.posSide,
    entry_price := e.entry_price, exit_price := f.price, amount := e.amount,
    pnl_percent :=
      if f.posSide == "long" then
        (f.price - e.entry_price) / e.entry_price * 100
      else (e.entry_price - f.price) / e.entry_price * 100,
    realized_pnl := f.fillPnl, entry_time := e.timestamp,
    exit_time := f.timestamp }

/-- One iteration of the fill loop of `init_mcp_from_okx_trades`: an opening
fill (`fillPnl == 0`) overwrites the per-side entry record; a closing fill is
paired with the stored entry of its `posSide` and recorded to the MCP memory
(and the entry is consumed) — or silently dropped when no entry is stored. -/
def initMcpStep (symbol : String)
    (acc : StrDict OpenFillInfo × List McpTradeInfo) (f : OkxFill) :
    StrDict OpenFillInfo × List McpTradeInfo :=
  if f.fillPnl == 0 then
    (dictInsert acc.1 f.posSide
      { entry_price := f.price, amount := f.amount,
        timestamp := f.timestamp, side := f.posSide }, acc.2)
  else
    match dictLookup acc.1 f.posSide with
    | some e => (dictErase acc.1 f.posSide, acc.2 ++ [initRecordOf symbol e f])
    | none => acc

/-- `trades.sort(key=lambda x: x.get('timestamp', 0))` in
`init_mcp_from_okx_trades`. -/
def sortFills (fs : List OkxFill) : List OkxFill :=
  fs.insertionSort (fun a b => a.timestamp ≤ b.timestamp)

/-- `init_mcp_from_okx_trades` for one symbol: sort the fills by timestamp
and fold the pairing loop; the result is the list of trade records written to
the MCP memory.  The function never writes to the ledger. -/
def init_mcp_from_okx_trades (symbol : String) (fills : List OkxFill) :
    List McpTradeInfo :=
  ((sortFills fills).foldl (initMcpStep symbol) ([], [])).2

/-! ## Reachable ledger states

The ledger is mutated only by the operations modelled above: the executor's
opens (`create_trade`) and closes (`close_trade`), the reconciler
(`sync_database_with_positions`) and the fill synchronizer
(`sync_filled_orders_from_api`); it starts empty. -/

/-- Ledger states reachable from the empty ledger through the program's
ledger-mutating operations. -/
inductive Reachable : Ledger → Prop
  | empty : Reachable []
  | create (l : Ledger) (symbol signal : String) (entry_price quantity : ℚ)
      (leverage : Int) (d : Decision) (now : Nat) : Reachable l →
      Reachable (create_trade l symbol signal entry_price quantity leverage d now).1
  | close (l : Ledger) (trade_id : Nat) (exit_price realized_pnl : ℚ)
      (d : Option Decision) (now : Nat) : Reachable l →
      Reachable (close_trade l trade_id exit_price realized_pnl d now)
  | reconcile (l : Ledger) (pos : Option RemotePosition) (now : Nat) :
      Reachable l → Reachable (sync_database_with_positions l pos now)
  | fillSync (l : Ledger) (fetch : String → List ApiOrder) : Reachable l →
      Reachable (sync_filled_orders_from_api l fetch).1

/-! ## Concrete instances used to settle the claims -/

/-- A BUY decision for symbol `XYZ` (the symbol of the spec's scenario A). -/
def decisionBuyXYZ : Decision :=
  { signal := "BUY", symbol := "XYZ", amount := some 2, stop_loss := some 90,
    take_profit := some 120, confidence := some "HIGH",
    reason := some "breakout" }

/-- A second BUY decision for `XYZ` with a different payload, playing the
confirming cycle's decision. -/
def decisionBuyXYZ2 : Decision :=
  { signal := "BUY", symbol := "XYZ", amount := some 3, stop_loss := some 95,
    take_profit := some 130, confidence := some "MEDIUM",
    reason := some "continuation" }

/-- A HOLD decision. -/
def decisionHold : Decision :=
  { signal := "HOLD", symbol := "XYZ", amount := none, stop_loss := none,
    take_profit := none, confidence := none, reason := none }

/-- A BUY decision for `BTC`. -/
def decisionBuyBTC : Decision :=
  { signal := "BUY", symbol := "BTC", amount := some (1 / 100),
    stop_loss := some 95000, take_profit := some 120000,
    confidence := some "HIGH", reason := some "trend" }

/-- An exchange environment whose order placement succeeds. -/
def envOrderOk : ExchangeEnv :=
  { create_order_result := some "okx-1", position_by_symbol := none,
    now := 50 }

/-- The row appended to the ledger when a confirmed open for coin `XYZ` is
executed at `price` with decision payload `d`: exactly the row built by
`create_trade` from `_execute_real_open`'s arguments (`TRADING_CONFIG` has no
amount for `XYZ`, so the default quantity is `0.01`). -/
def confirmedOpenRowXYZ (L : Ledger) (d : Decision) (price : ℚ) (now : Nat) :
    TradeRow :=
  { id := nextTradeId L, symbol := "XYZ/USDT:USDT", signal := "BUY",
    side := some "long", entry_price := price, exit_price := none,
    quantity := d.amount.getD (1 / 100), leverage := 10, open_time := now,
    close_time := none, holding_duration_seconds := none, realized_pnl := none,
    pnl_percent := none, entry_order_id := none, exit_order_id := none,
    stop_loss_price := d.stop_loss, take_profit_price := d.take_profit,
    ai_confidence := d.confidence, ai_reason := d.reason, status := "OPEN",
    notes := "", created_at := now, updated_at := now }

/-- Cycle input: first BUY for `XYZ` at price 100. -/
def inputBuyXYZ : CycleInput :=
  { decision := decisionBuyXYZ, price := 100, env := envOrderOk }

/-- Cycle input: a HOLD. -/
def inputHold : CycleInput :=
  { decision := decisionHold, price := 100, env := envOrderOk }

/-- Cycle input: second BUY for `XYZ` at price 105 with a different payload. -/
def inputBuyXYZ2 : CycleInput :=
  { decision := decisionBuyXYZ2, price := 105, env := envOrderOk }

/-- A remote fill feed for the fill synchronizer holding one opening buy and
a later closing sell for `SOL/USDT:USDT` (scenario C's shape: a closing fill
with no matching OPEN ledger record, preceded by an opening fill of the same
side). -/
def c6Fetch : String → List ApiOrder := fun s =>
  if s = "SOL/USDT:USDT" then
    [{ side := "buy", price := 100, amount := 1, timestamp := 10 },
     { side := "sell", price := 105, amount := 1, timestamp := 20 }]
  else []

/-- A ledger holding one OPEN long `BTC/USDT:USDT` record, produced by one
`create_trade`. -/
def c5Ledger : Ledger :=
  (create_trade [] "BTC/USDT:USDT" "BUY" 100000 (1 / 100) 10 decisionBuyBTC 10).1

/-- A remote fill feed with one closing sell for `BTC/USDT:USDT` postdating
the open of `c5Ledger`: the input on which the fill synchronizer is supposed
to close the record. -/
def c5Fetch : String → List ApiOrder := fun s =>
  if s = "BTC/USDT:USDT" then
    [{ side := "sell", price := 110000, amount := 1 / 100, timestamp := 60 }]
  else []

/-- A ledger holding two OPEN long `BTC/USDT:USDT` records, produced by two
`create_trade` calls. -/
def c4Ledger : Ledger :=
  (create_trade c5Ledger "BTC/USDT:USDT" "BUY" 101000 (1 / 100) 10 decisionBuyBTC 20).1

/-- A remote position for `BTC/USDT:USDT`, matching both open records of
`c4Ledger`. -/
def c4Pos : RemotePosition :=
  { symbol := "BTC/USDT:USDT", side := "long", size := 2 / 100,
    entry_price := 100000, unrealized_pnl := 0 }

/-- An opening fill (zero `fillPnl`), long side, at price 100, time 1. -/
def fillOpen1 : OkxFill :=
  { side := "buy", posSide := "long", price := 100, amount := 1,
    timestamp := 1, fillPnl := 0 }

/-- A later opening fill, long side, at price 102, time 2. -/
def fillOpen2 : OkxFill :=
  { side := "buy", posSide := "long", price := 102, amount := 2,
    timestamp := 2, fillPnl := 0 }

/-- A closing fill (non-zero `fillPnl` = +12.5, the spec's scenario C), long
side, at price 105, time 3. -/
def fillClose : OkxFill :=
  { side := "sell", posSide := "long", price := 105, amount := 2,
    timestamp := 3, fillPnl := 25 / 2 }

/-! # Theorems -/

/-! ## The fill synchronizer never mutates the ledger

Every ledger row handed to the matching loop comes from `get_open_trades`,
whose dict keys are the `trades` columns; the loop reads the key
`entry_time`, which is not a column, so the guard
`if not entry_time_str: continue` skips every row and no fill is ever
applied. -/

theorem TradeRow.getTime_entry_time (r : TradeRow) :
    r.getTime "entry_time" = none := by
  simp [TradeRow.getTime]

theorem orderMatchesTrade_eq_false (s : String) (o : ApiOrder) (t : TradeRow) :
    orderMatchesTrade s o t = false := by
  simp [orderMatchesTrade, TradeRow.getTime_entry_time]

theorem syncOrdersLoop_eq (s : String) (ts : List TradeRow) :
    ∀ (os : List ApiOrder) (l : Ledger) (n : Nat),
      syncOrdersLoop s ts os l n = (l, n) := by
  intro os
  induction os with
  | nil => intro l n; rfl
  | cons o rest ih =>
    intro l n
    rw [syncOrdersLoop, List.find?_eq_none.mpr
      (fun t _ => by simp [orderMatchesTrade_eq_false])]
    exact ih l n

theorem syncOneSymbol_eq (fetch : String → List ApiOrder)
    (acc : Ledger × Nat) (s : String) : syncOneSymbol fetch acc s = acc := by
  simp only [syncOneSymbol]
  by_cases h : (sortOrders (fetch s)).isEmpty
  · simp [h]
  · simp [h, syncOrdersLoop_eq]

theorem syncFilledOrdersRun_eq (l : Ledger) (fetch : String → List ApiOrder) :
    syncFilledOrdersRun l fetch = (l, 0) := by
  simp [syncFilledOrdersRun, orderSyncSymbols, syncOneSymbol_eq]

theorem sync_filled_orders_from_api_eq (l : Ledger)
    (fetch : String → List ApiOrder) :
    sync_filled_orders_from_api l fetch = (l, none) := by
  simp [sync_filled_orders_from_api, syncFilledOrdersRun_eq]

/-- Claim C3, settled as a code bug: the claim (and the spec contract
`sync(lookback_window) -> int`) requires the fill synchronizer to return the
integer count of ledger mutations, but
`OrderSync.sync_filled_orders_from_api` has no return statement and returns
`None` for every input, and the caller's comparison `if synced_count > 0:` in
`run_cycle` therefore raises `TypeError` instead of comparing a count with
zero. -/
theorem C3_sync_returns_none_not_int (l : Ledger)
    (fetch : String → List ApiOrder) :
    (sync_filled_orders_from_api l fetch).2 = none ∧
    pyGtNat (sync_filled_orders_from_api l fetch).2 0 =
      Except.error "TypeError: NoneType is not comparable with int" := by
  rw [sync_filled_orders_from_api_eq]
  exact ⟨rfl, rfl⟩

/-- Claim C5, settled as a code bug: the fill synchronizer is "idempotent"
only because it never mutates the ledger at all — the matching loop reads the
dict key `entry_time` (the column is `open_time`) and skips every row, and
its UPDATE names the nonexistent column `exit_time` — so in particular no
fill is ever applied to the record of `c5Ledger` that the spec's
deduplication story is about, and no `exit_order_id` is ever read or
written. -/
theorem C5_sync_is_inert (l : Ledger) (fetch : String → List ApiOrder) :
    sync_filled_orders_from_api l fetch = (l, none) ∧
    sync_filled_orders_from_api (sync_filled_orders_from_api l fetch).1 fetch =
      sync_filled_orders_from_api l fetch ∧
    (sync_filled_orders_from_api c5Ledger c5Fetch).1 = c5Ledger ∧
    ∀ r ∈ (sync_filled_orders_from_api c5Ledger c5Fetch).1,
      r.exit_order_id = none ∧ r.status = "OPEN" := by
  refine ⟨sync_filled_orders_from_api_eq l fetch, ?_, ?_, ?_⟩
  · simp [sync_filled_orders_from_api_eq]
  · rw [sync_filled_orders_from_api_eq]
  · rw [sync_filled_orders_from_api_eq]
    decide

/-- Claim C9, counterexample: with `skip_cycles = 1` the cycle executes no
step at all — in particular neither the fill-sync step nor the
reconciliation step — refuting the claim that those steps run in every
cycle regardless of the cadence controller's skip decision. -/
theorem C9_counterexample_skipped_cycle_runs_nothing :
    run_cycle_trace 1 [] (fun _ => []) = (0, []) ∧
    CycleStep.fillSync ∉ (run_cycle_trace 1 [] (fun _ => [])).2 ∧
    CycleStep.reconcile ∉ (run_cycle_trace 1 [] (fun _ => [])).2 := by
  refine ⟨rfl, ?_, ?_⟩ <;> simp [run_cycle_trace]

/-- Claim C9 as amended: a cycle with a positive skip counter only
decrements the counter and returns, executing none of the steps; a
non-skipped cycle runs market data, balance, positions and fill sync, and
then ends with the `TypeError` raised by comparing the fill synchronizer's
`None` return with `0`, so the reconciliation step is not reached there
either. -/
theorem C9_amended_skip_omits_whole_cycle (skip : Nat) (l : Ledger)
    (fetch : String → List ApiOrder) :
    (0 < skip → run_cycle_trace skip l fetch = (skip - 1, [])) ∧
    (skip = 0 →
      (run_cycle_trace skip l fetch).2 =
        [CycleStep.marketData, CycleStep.accountBalance,
         CycleStep.fetchPositions, CycleStep.fillSync] ∧
      CycleStep.reconcile ∉ (run_cycle_trace skip l fetch).2) := by
  constructor
  · intro h
    simp [run_cycle_trace, h]
  · intro h
    subst h
    rw [show run_cycle_trace 0 l fetch =
        (0, [CycleStep.marketData, CycleStep.accountBalance,
             CycleStep.fetchPositions, CycleStep.fillSync]) from ?_]
    · exact ⟨rfl, by decide⟩
    · simp [run_cycle_trace, sync_filled_orders_from_api_eq, pyGtNat]

/-- Witness for `C9_amended_skip_omits_whole_cycle` at `skip = 1` and
`skip = 0` on the empty ledger and empty fill feed. -/
theorem C9_amended_skip_omits_whole_cycle_witness :
    run_cycle_trace 1 c5Ledger c5Fetch = (0, []) ∧
    (run_cycle_trace 0 c5Ledger c5Fetch).2 =
      [CycleStep.marketData, CycleStep.accountBalance,
       CycleStep.fetchPositions, CycleStep.fillSync] :=
  ⟨(C9_amended_skip_omits_whole_cycle 1 c5Ledger c5Fetch).1 (by decide),
   ((C9_amended_skip_omits_whole_cycle 0 c5Ledger c5Fetch).2 rfl).1⟩

/-- Claim C8: the cadence logic of `run_cycle` increments
`consecutive_holds` on a HOLD signal with no open position (backoff
enabled), and sets the skip count to
`min(2 ** (consecutive_holds - threshold + 1), max_skip)` once the threshold
is reached and to `0` below it (the skip counter is necessarily `0` when the
block runs, since a positive counter makes `run_cycle` return before it);
any non-HOLD signal or an existing open position resets both counters; and
with `threshold = 3`, `max_skip = 8` six consecutive holds from the reset
state produce the skip sequence `0,0,2,4,8,8`, i.e. `2,4,8,8` at
`consecutive_holds = 3,4,5,6`. -/
theorem C8_cadence_backoff (threshold max_skip : Nat) (st : CadenceState)
    (signal : String) (has_position : Bool)
    (h0 : st.skip_cycles = 0) :
    (signal = "HOLD" → has_position = false →
      cadence_backoff_step threshold max_skip true st signal has_position =
        { consecutive_holds := st.consecutive_holds + 1,
          skip_cycles :=
            if threshold ≤ st.consecutive_holds + 1 then
              min (2 ^ (st.consecutive_holds + 1 - threshold + 1)) max_skip
            else 0 }) ∧
    (signal ≠ "HOLD" ∨ has_position = true →
      cadence_backoff_step threshold max_skip true st signal has_position =
        { consecutive_holds := 0, skip_cycles := 0 }) ∧
    cadenceSkips 3 8 6 { consecutive_holds := 0, skip_cycles := 0 } =
      [0, 0, 2, 4, 8, 8] := by
  refine ⟨?_, ?_, by decide⟩
  · intro hs hp
    subst hs hp
    simp only [cadence_backoff_step]
    split
    · split
      · rfl
      · simp [h0]
    · simp at *
  · intro h
    rcases h with h | h
    · have hb : (signal == "HOLD") = false := by
        simpa using h
      simp [cadence_backoff_step, hb]
    · subst h
      simp [cadence_backoff_step]

/-- Witness for `C8_cadence_backoff`: at `threshold = 3`, `max_skip = 8`,
from `consecutive_holds = 2`, a HOLD with no position yields skip count 2,
and a BUY resets the counters. -/
theorem C8_cadence_backoff_witness :
    cadence_backoff_step 3 8 true
        { consecutive_holds := 2, skip_cycles := 0 } "HOLD" false =
      { consecutive_holds := 3, skip_cycles := 2 } ∧
    cadence_backoff_step 3 8 true
        { consecutive_holds := 5, skip_cycles := 0 } "BUY" false =
      { consecutive_holds := 0, skip_cycles := 0 } := by
  constructor
  · have h := (C8_cadence_backoff 3 8
      { consecutive_holds := 2, skip_cycles := 0 } "HOLD" false rfl).1 rfl rfl
    rw [h]
    decide
  · exact (C8_cadence_backoff 3 8
      { consecutive_holds := 5, skip_cycles := 0 } "BUY" false rfl).2.1
      (Or.inl (by decide))

/-- Claim C10: the fill synchronizer's closing UPDATE writes the lowercase
status string `'closed'`, which differs from both `'OPEN'` and `'CLOSED'`;
a record so updated is therefore excluded from the open-trades query
(`WHERE status = 'OPEN'`), still counted in the `open_trades` figure of the
trade statistics (`total_trades - closed_trades`, where `closed_trades`
counts `'CLOSED'`), and never counted in the closed-trade statistics. -/
theorem C10_lowercase_closed_status (l : Ledger) (r : TradeRow)
    (exit_price realized_pnl : ℚ) :
    (orderSyncCloseSet r exit_price realized_pnl).status = "closed" ∧
    (orderSyncCloseSet r exit_price realized_pnl).status ≠ "CLOSED" ∧
    (orderSyncCloseSet r exit_price realized_pnl).status ≠ "OPEN" ∧
    get_open_trades (l ++ [orderSyncCloseSet r exit_price realized_pnl]) =
      get_open_trades l ∧
    (get_trade_statistics (l ++ [orderSyncCloseSet r exit_price realized_pnl])).open_trades =
      (get_trade_statistics l).open_trades + 1 ∧
    (get_trade_statistics (l ++ [orderSyncCloseSet r exit_price realized_pnl])).closed_trades =
      (get_trade_statistics l).closed_trades ∧
    (get_trade_statistics (l ++ [orderSyncCloseSet r exit_price realized_pnl])).winning_trades =
      (get_trade_statistics l).winning_trades := by
  refine ⟨rfl, by simp [orderSyncCloseSet], by simp [orderSyncCloseSet], ?_, ?_, ?_, ?_⟩
  · simp [get_open_trades, orderSyncCloseSet]
  · have hle : (l.filter (fun r => r.status == "CLOSED")).length ≤ l.length :=
      List.length_filter_le _ l
    simp [get_trade_statistics, orderSyncCloseSet]
    omega
  · simp [get_trade_statistics, orderSyncCloseSet]
  · simp [get_trade_statistics, orderSyncCloseSet]

/-! ## The position reconciler -/

theorem TradeRow.getQ_entry_price (r : TradeRow) :
    r.getQ "entry_price" = some r.entry_price := rfl

theorem TradeRow.getQ_amount (r : TradeRow) : r.getQ "amount" = none := by
  simp [TradeRow.getQ]

/-- The price lookup always fails, so every reconciler closure uses the
row's entry price as exit price and `0` as realized pnl. -/
theorem reconCloseArgs_eq (t : TradeRow) :
    reconCloseArgs t = (t.entry_price, 0) := by
  simp [reconCloseArgs, get_current_price_query, TradeRow.getQ_entry_price]

/-- Any row of a ledger after `close_trade` is either closed or an untouched
row of the input (and an untouched row can carry the closed id only when no
row carries it). -/
theorem close_trade_mem {r2 : TradeRow} {l : Ledger} {tid : Nat}
    {ep pnl : ℚ} {d : Option Decision} {now : Nat}
    (h : r2 ∈ close_trade l tid ep pnl d now) :
    r2.status = "CLOSED" ∨
      (r2 ∈ l ∧ (r2.id = tid → l.find? (fun r => r.id == tid) = none)) := by
  unfold close_trade at h
  cases hf : l.find? (fun r => r.id == tid) with
  | none =>
    rw [hf] at h
    exact Or.inr ⟨h, fun _ => rfl⟩
  | some row =>
    rw [hf] at h
    rcases List.mem_map.mp h with ⟨r, hr, hmap⟩
    by_cases hid : (r.id == tid) = true
    · rw [if_pos hid] at hmap
      rw [← hmap]
      exact Or.inl rfl
    · rw [if_neg hid] at hmap
      subst hmap
      refine Or.inr ⟨hr, fun hEq => ?_⟩
      exact absurd (by simpa using hEq) (by simpa using hid)

/-- Invariant of the reconciler's closing fold: if every open row either
satisfies `P` or is scheduled for closure, then every row still open after
the fold satisfies `P`. -/
theorem foldl_reconClose_open (note : String) (now : Nat)
    (P : TradeRow → Prop) :
    ∀ (ts : List TradeRow) (l : Ledger),
      (∀ r ∈ l, r.status = "OPEN" → P r ∨ ∃ t ∈ ts, t.id = r.id) →
      ∀ r ∈ ts.foldl (reconClose note now) l, r.status = "OPEN" → P r := by
  intro ts
  induction ts with
  | nil =>
    intro l hprem r hr hopen
    rcases hprem r hr hopen with h | ⟨t, ht, _⟩
    · exact h
    · exact absurd ht (List.not_mem_nil t)
  | cons t0 rest ih =>
    intro l hprem r hr hopen
    rw [List.foldl_cons] at hr
    refine ih (reconClose note now l t0) ?_ r hr hopen
    intro r2 hr2 hopen2
    simp only [reconClose] at hr2
    rcases close_trade_mem hr2 with hclosed | ⟨hmem, himp⟩
    · rw [hopen2] at hclosed
      exact absurd hclosed (by decide)
    · rcases hprem r2 hmem hopen2 with h | ⟨t, ht, htid⟩
      · exact Or.inl h
      · rcases List.mem_cons.mp ht with rfl | htr
        · exfalso
          have hnone := himp htid.symm
          have hne := List.find?_eq_none.mp hnone r2 hmem
          simp [htid.symm] at hne
        · exact Or.inr ⟨t, htr, htid⟩

/-- Claim C4, counterexample: `c4Ledger` is reachable (two executor opens for
`BTC/USDT:USDT`), and reconciling it against a remote position for that same
symbol leaves two OPEN records for the symbol — the reconciler does not
enforce at most one OPEN record per symbol. -/
theorem C4_counterexample_two_open_records_survive :
    Reachable c4Ledger ∧
    ((sync_database_with_positions c4Ledger (some c4Pos) 30).filter
      (fun r => r.status == "OPEN" && r.symbol == "BTC/USDT:USDT")).length = 2 := by
  constructor
  · exact Reachable.create c5Ledger "BTC/USDT:USDT" "BUY" 101000 (1 / 100) 10
      decisionBuyBTC 20
      (Reachable.create [] "BTC/USDT:USDT" "BUY" 100000 (1 / 100) 10
        decisionBuyBTC 10 Reachable.empty)
  · decide

/-- Claim C4 as amended: after the reconciler completes, every record that is
still OPEN carries the symbol of the remote position passed in (in
particular, with no remote position, no record stays OPEN); the reconciler
does not bound the number of OPEN records per symbol. -/
theorem C4_amended_open_records_match_position (l : Ledger)
    (posOpt : Option RemotePosition) (now : Nat) :
    ∀ r ∈ sync_database_with_positions l posOpt now, r.status = "OPEN" →
      ∃ p, posOpt = some p ∧ r.symbol = p.symbol := by
  intro r hr hopen
  unfold sync_database_with_positions at hr
  by_cases hemp : (get_open_trades l).isEmpty
  · rw [if_pos hemp] at hr
    exfalso
    have hm : r ∈ get_open_trades l :=
      List.mem_filter.mpr ⟨hr, by simp [hopen]⟩
    rw [List.isEmpty_iff.mp hemp] at hm
    exact absurd hm (List.not_mem_nil r)
  · rw [if_neg hemp] at hr
    cases posOpt with
    | none =>
      exact absurd hopen (by
        have hfalse := foldl_reconClose_open "系统同步：实际无持仓" now
          (fun _ => False) (get_open_trades l) l
          (fun r2 hr2 hopen2 =>
            Or.inr ⟨r2, List.mem_filter.mpr ⟨hr2, by simp [hopen2]⟩, rfl⟩)
          r hr
        intro hopen
        exact hfalse hopen)
    | some pos =>
      refine ⟨pos, rfl, ?_⟩
      refine foldl_reconClose_open "系统同步：币种不匹配" now
        (fun r2 => r2.symbol = pos.symbol)
        ((get_open_trades l).filter (fun t => t.symbol != pos.symbol)) l
        ?_ r hr hopen
      intro r2 hr2 hopen2
      by_cases hsym : r2.symbol = pos.symbol
      · exact Or.inl hsym
      · refine Or.inr ⟨r2, List.mem_filter.mpr
          ⟨List.mem_filter.mpr ⟨hr2, by simp [hopen2]⟩, by simp [hsym]⟩, rfl⟩

/-- Witness for `C4_amended_open_records_match_position`: the first record of
`c4Ledger` survives reconciliation against `c4Pos` still OPEN, and its
symbol equals the position's. -/
theorem C4_amended_open_records_match_position_witness :
    ∃ p, some c4Pos = some p ∧ (c5Ledger.headD default).symbol = p.symbol :=
  C4_amended_open_records_match_position c4Ledger (some c4Pos) 30
    (c5Ledger.headD default) (List.Mem.head _) rfl

/-- `find?` by id returns the row itself when the ledger's ids are distinct. -/
theorem find?_id_eq_some_of_nodup :
    ∀ {l : Ledger} {t : TradeRow}, (idsOf l).Nodup → t ∈ l →
      l.find? (fun r => r.id == t.id) = some t := by
  intro l
  induction l with
  | nil => intro t _ ht; exact absurd ht (List.not_mem_nil t)
  | cons h tl ih =>
    intro t hnd ht
    have hnd2 := List.nodup_cons.mp hnd
    rcases List.mem_cons.mp ht with rfl | htl
    · simp [List.find?]
    · have hne : (h.id == t.id) = false := by
        refine beq_eq_false_iff_ne.mpr (fun hEq => ?_)
        have hm : t.id ∈ List.map (fun r => r.id) tl :=
          List.mem_map_of_mem (fun r => r.id) htl
        rw [← hEq] at hm
        exact hnd2.1 (by simpa using hm)
      simp only [List.find?, hne]
      exact ih hnd2.2 htl

theorem reconClosedRow_id (note : String) (now : Nat) (r : TradeRow) :
    (reconClosedRow note now r).id = r.id := rfl

/-- With distinct ids, one reconciler closure of a row `t` of the ledger is
the pointwise map closing exactly the rows with `t`'s id. -/
theorem reconClose_eq_map_of_mem {l : Ledger} {t : TradeRow}
    (hnd : (idsOf l).Nodup) (ht : t ∈ l) (note : String) (now : Nat) :
    reconClose note now l t =
      l.map (fun r => if r.id == t.id then reconClosedRow note now r else r) := by
  simp only [reconClose, close_trade, reconCloseArgs_eq,
    find?_id_eq_some_of_nodup hnd ht]
  refine List.map_congr_left (fun r hr => ?_)
  by_cases hid : (r.id == t.id) = true
  · have hrt : r = t :=
      List.inj_on_of_nodup_map hnd hr ht (by simpa using hid)
    subst hrt
    simp only [if_pos hid]
    rfl
  · simp only [if_neg hid]

/-- With distinct ids, the reconciler's closing fold over a duplicate-free
batch of rows of the ledger closes exactly the rows whose id is in the
batch. -/
theorem foldl_reconClose_eq_map (note : String) (now : Nat) :
    ∀ (ts : List TradeRow) (l : Ledger), (idsOf l).Nodup →
      (∀ t ∈ ts, t ∈ l) → (ts.map (fun t => t.id)).Nodup →
      ts.foldl (reconClose note now) l =
        l.map (fun r =>
          if r.id ∈ ts.map (fun t => t.id) then reconClosedRow note now r
          else r) := by
  intro ts
  induction ts with
  | nil =>
    intro l _ _ _
    simp
  | cons t0 rest ih =>
    intro l hnd hsub hts
    have ht0 : t0 ∈ l := hsub t0 (List.mem_cons_self t0 rest)
    have htsnd := List.nodup_cons.mp hts
    have hnotin0 : t0.id ∉ rest.map (fun t => t.id) := by
      simpa using htsnd.1
    rw [List.foldl_cons, reconClose_eq_map_of_mem hnd ht0 note now]
    have hids : idsOf (l.map (fun r =>
        if r.id == t0.id then reconClosedRow note now r else r)) = idsOf l := by
      simp only [idsOf, List.map_map]
      refine List.map_congr_left (fun r _ => ?_)
      simp only [Function.comp_apply]
      by_cases hid : (r.id == t0.id) = true
      · simp only [if_pos hid]
        rfl
      · simp only [if_neg hid]
    have hsub2 : ∀ t ∈ rest, t ∈ l.map (fun r =>
        if r.id == t0.id then reconClosedRow note now r else r) := by
      intro t ht
      have htl : t ∈ l := hsub t (List.mem_cons_of_mem t0 ht)
      have htid : (t.id == t0.id) = false := by
        refine beq_eq_false_iff_ne.mpr (fun hEq => ?_)
        exact hnotin0 (hEq ▸ List.mem_map_of_mem (fun t => t.id) ht)
      refine List.mem_map.mpr ⟨t, htl, ?_⟩
      simp [htid]
    rw [ih _ (hids.symm ▸ hnd) hsub2 htsnd.2]
    rw [List.map_map]
    refine List.map_congr_left (fun r hr => ?_)
    simp only [Function.comp_apply, List.map_cons, List.mem_cons]
    by_cases hr0 : r.id = t0.id
    · have hid : (r.id == t0.id) = true := by simpa using hr0
      have hnotin : r.id ∉ rest.map (fun t => t.id) := by
        rw [hr0]; exact hnotin0
      simp only [if_pos hid, reconClosedRow_id, if_neg hnotin]
      rw [if_pos (Or.inl hr0)]
    · have hid : (r.id == t0.id) = false := by simpa using hr0
      simp only [hid, Bool.false_eq_true, if_false]
      by_cases hmem : r.id ∈ rest.map (fun t => t.id)
      · rw [if_pos hmem, if_pos (Or.inr hmem)]
      · rw [if_neg hmem, if_neg (by
          intro h
          rcases h with h | h
          · exact hr0 h
          · exact hmem h)]

theorem pnlPercentCalc_zero (r : TradeRow) : pnlPercentCalc r 0 = 0 := by
  unfold pnlPercentCalc
  split <;> simp

/-- Claim C7: reconciling with no remote position leaves no record OPEN, and
each previously OPEN record reappears CLOSED with a close time, with its own
entry price as the fallback exit price (the price fetch always fails and the
failure is absorbed, never raised), and with realized pnl equal to the
claim's formula evaluated at that exit price — `(exit − entry) × qty` for a
long, `(entry − exit) × qty` for a short, which is `0` since exit = entry. -/
theorem C7_reconcile_empty_closes_all (l : Ledger) (now : Nat)
    (hnd : (idsOf l).Nodup) :
    (∀ r ∈ sync_database_with_positions l none now, r.status ≠ "OPEN") ∧
    (∀ r ∈ l, r.status = "OPEN" →
      reconClosedRow "系统同步：实际无持仓" now r ∈
        sync_database_with_positions l none now ∧
      (reconClosedRow "系统同步：实际无持仓" now r).id = r.id ∧
      (reconClosedRow "系统同步：实际无持仓" now r).status = "CLOSED" ∧
      (reconClosedRow "系统同步：实际无持仓" now r).close_time = some now ∧
      (reconClosedRow "系统同步：实际无持仓" now r).exit_price =
        some r.entry_price ∧
      (reconClosedRow "系统同步：实际无持仓" now r).realized_pnl =
        some (specRealizedPnl r.side r.entry_price r.entry_price r.quantity)) := by
  by_cases hemp : (get_open_trades l).isEmpty
  · have hnone : ∀ r ∈ l, r.status ≠ "OPEN" := by
      intro r hr hopen
      have hm : r ∈ get_open_trades l :=
        List.mem_filter.mpr ⟨hr, by simp [hopen]⟩
      rw [List.isEmpty_iff.mp hemp] at hm
      exact absurd hm (List.not_mem_nil r)
    constructor
    · intro r hr
      unfold sync_database_with_positions at hr
      rw [if_pos hemp] at hr
      exact hnone r hr
    · intro r hr hopen
      exact absurd hopen (hnone r hr)
  · have hsub : ∀ t ∈ get_open_trades l, t ∈ l :=
      fun t ht => (List.mem_filter.mp ht).1
    have htsnd : ((get_open_trades l).map (fun t => t.id)).Nodup := by
      refine List.Nodup.sublist ?_ hnd
      exact List.Sublist.map (fun r => r.id) (List.filter_sublist l)
    have hres : sync_database_with_positions l none now =
        l.map (fun r =>
          if r.id ∈ (get_open_trades l).map (fun t => t.id) then
            reconClosedRow "系统同步：实际无持仓" now r
          else r) := by
      unfold sync_database_with_positions
      rw [if_neg hemp]
      exact foldl_reconClose_eq_map _ now (get_open_trades l) l hnd hsub htsnd
    constructor
    · intro r2 hr2 hopen2
      rw [hres] at hr2
      rcases List.mem_map.mp hr2 with ⟨r, hr, hmap⟩
      by_cases hmem : r.id ∈ (get_open_trades l).map (fun t => t.id)
      · rw [if_pos hmem] at hmap
        rw [← hmap] at hopen2
        have hC : (reconClosedRow "系统同步：实际无持仓" now r).status = "CLOSED" := rfl
        rw [hC] at hopen2
        exact absurd hopen2 (by decide)
      · rw [if_neg hmem] at hmap
        subst hmap
        exact hmem (List.mem_map_of_mem (fun t => t.id)
          (List.mem_filter.mpr ⟨hr, by simp [hopen2]⟩))
    · intro r hr hopen
      have hmem : r.id ∈ (get_open_trades l).map (fun t => t.id) :=
        List.mem_map_of_mem (fun t => t.id)
          (List.mem_filter.mpr ⟨hr, by simp [hopen]⟩)
      refine ⟨?_, rfl, rfl, rfl, rfl, ?_⟩
      · rw [hres]
        refine List.mem_map.mpr ⟨r, hr, ?_⟩
        rw [if_pos hmem]
      · show some (0 : ℚ) = _
        rw [specRealizedPnl]
        split <;> simp

/-- Witness for `C7_reconcile_empty_closes_all` on the one-record ledger
`c5Ledger` at time 99. -/
theorem C7_reconcile_empty_closes_all_witness :
    reconClosedRow "系统同步：实际无持仓" 99 (c5Ledger.headD default) ∈
      sync_database_with_positions c5Ledger none 99 ∧
    (reconClosedRow "系统同步：实际无持仓" 99 (c5Ledger.headD default)).id =
      (c5Ledger.headD default).id ∧
    (reconClosedRow "系统同步：实际无持仓" 99 (c5Ledger.headD default)).status =
      "CLOSED" ∧
    (reconClosedRow "系统同步：实际无持仓" 99 (c5Ledger.headD default)).close_time =
      some 99 ∧
    (reconClosedRow "系统同步：实际无持仓" 99 (c5Ledger.headD default)).exit_price =
      some (c5Ledger.headD default).entry_price ∧
    (reconClosedRow "系统同步：实际无持仓" 99 (c5Ledger.headD default)).realized_pnl =
      some (specRealizedPnl (c5Ledger.headD default).side
        (c5Ledger.headD default).entry_price
        (c5Ledger.headD default).entry_price
        (c5Ledger.headD default).quantity) :=
  (C7_reconcile_empty_closes_all c5Ledger 99 (by decide)).2
    (c5Ledger.headD default) (List.Mem.head _) rfl

/-! ## The confirmation gate -/

/-- Claim C2: from a state with no pending entry for `XYZ`, the first BUY
creates a pending record and returns no trade id with the ledger unchanged;
the second BUY clears the pending record and executes exactly one open —
the ledger is extended by exactly the one row built from the *confirming*
cycle's decision payload `d2` and price, and its id is returned. -/
theorem C2_two_identical_buys_open_once (L : Ledger) (d1 d2 : Decision)
    (p1 p2 : ℚ) (e1 e2 : ExchangeEnv) (tid0 : Option Nat) (c0 : Nat)
    (oid : String)
    (h1 : d1.signal = "BUY") (hs1 : d1.symbol = "XYZ")
    (h2 : d2.signal = "BUY") (hs2 : d2.symbol = "XYZ")
    (he : e2.create_order_result = some oid) :
    mainExecuteStep c0
        { pending_open_decisions := [], current_cycle := 0, ledger := L } tid0
        { decision := d1, price := p1, env := e1 } =
      ({ pending_open_decisions :=
           [("XYZ", { signal := "BUY", cycle := c0, decision := d1 })],
         current_cycle := c0, ledger := L }, none) ∧
    runDecisionCycles
        { pending_open_decisions := [], current_cycle := 0, ledger := L } tid0
        c0
        [{ decision := d1, price := p1, env := e1 },
         { decision := d2, price := p2, env := e2 }] =
      ({ pending_open_decisions := [], current_cycle := c0 + 1,
         ledger := L ++ [confirmedOpenRowXYZ L d2 p2 e2.now] },
       some (nextTradeId L)) := by
  obtain ⟨sig1, sym1, a1, sl1, tp1, cf1, rs1⟩ := d1
  obtain ⟨sig2, sym2, a2, sl2, tp2, cf2, rs2⟩ := d2
  obtain ⟨cor2, pos2, now2⟩ := e2
  simp only [Decision.signal, Decision.symbol, ExchangeEnv.create_order_result] at h1 hs1 h2 hs2 he
  subst h1 hs1 h2 hs2 he
  exact ⟨rfl, rfl⟩

/-- Witness for `C2_two_identical_buys_open_once` on the empty ledger with
the concrete decisions `decisionBuyXYZ` / `decisionBuyXYZ2`. -/
theorem C2_two_identical_buys_open_once_witness :
    mainExecuteStep 1
        { pending_open_decisions := [], current_cycle := 0, ledger := [] }
        none { decision := decisionBuyXYZ, price := 100, env := envOrderOk } =
      ({ pending_open_decisions :=
           [("XYZ", { signal := "BUY", cycle := 1, decision := decisionBuyXYZ })],
         current_cycle := 1, ledger := [] }, none) ∧
    runDecisionCycles
        { pending_open_decisions := [], current_cycle := 0, ledger := [] }
        none 1
        [{ decision := decisionBuyXYZ, price := 100, env := envOrderOk },
         { decision := decisionBuyXYZ2, price := 105, env := envOrderOk }] =
      ({ pending_open_decisions := [], current_cycle := 2,
         ledger := [confirmedOpenRowXYZ [] decisionBuyXYZ2 105 envOrderOk.now] },
       some (nextTradeId [])) := by
  have h := C2_two_identical_buys_open_once [] decisionBuyXYZ decisionBuyXYZ2
    100 105 envOrderOk envOrderOk none 1 "okx-1" rfl rfl rfl rfl rfl
  simpa using h

/-- Claim C1, counterexample: feeding the sequence [BUY, HOLD, BUY] for
symbol `XYZ` through the executor over three consecutive cycles, starting
with no pending entry, DOES open a position — the third cycle returns trade
id 1 and the ledger ends with one OPEN record — contradicting the claim
that the sequence must not produce an execution. -/
theorem C1_counterexample_buy_hold_buy_opens :
    (runDecisionCycles
        { pending_open_decisions := [], current_cycle := 0, ledger := [] }
        none 1 [inputBuyXYZ, inputHold, inputBuyXYZ2]).2 = some 1 ∧
    (runDecisionCycles
        { pending_open_decisions := [], current_cycle := 0, ledger := [] }
        none 1 [inputBuyXYZ, inputHold, inputBuyXYZ2]).1.ledger.length = 1 ∧
    ((runDecisionCycles
        { pending_open_decisions := [], current_cycle := 0, ledger := [] }
        none 1 [inputBuyXYZ, inputHold, inputBuyXYZ2]).1.ledger.headD
          default).status = "OPEN" :=
  ⟨rfl, rfl, rfl⟩

/-- Claim C1 as amended: the middle HOLD leaves the executor state and the
ledger entirely untouched (it neither confirms nor resets the pending
entry), and therefore the sequence [BUY, HOLD, BUY] produces exactly one
open — on the third signal, which confirms the pending entry created two
cycles earlier, since the gate performs no cycle-adjacency check. -/
theorem C1_amended_buy_hold_buy_opens_on_third (L : Ledger)
    (d1 d2 d3 : Decision) (p1 p2 p3 : ℚ) (e1 e2 e3 : ExchangeEnv)
    (tid0 : Option Nat) (c0 : Nat) (oid : String)
    (h1 : d1.signal = "BUY") (hs1 : d1.symbol = "XYZ")
    (h2 : d2.signal = "HOLD")
    (h3 : d3.signal = "BUY") (hs3 : d3.symbol = "XYZ")
    (he : e3.create_order_result = some oid) :
    runDecisionCycles
        { pending_open_decisions := [], current_cycle := 0, ledger := L } tid0
        c0
        [{ decision := d1, price := p1, env := e1 },
         { decision := d2, price := p2, env := e2 }] =
      runDecisionCycles
        { pending_open_decisions := [], current_cycle := 0, ledger := L } tid0
        c0 [{ decision := d1, price := p1, env := e1 }] ∧
    runDecisionCycles
        { pending_open_decisions := [], current_cycle := 0, ledger := L } tid0
        c0
        [{ decision := d1, price := p1, env := e1 },
         { decision := d2, price := p2, env := e2 },
         { decision := d3, price := p3, env := e3 }] =
      ({ pending_open_decisions := [], current_cycle := c0 + 2,
         ledger := L ++ [confirmedOpenRowXYZ L d3 p3 e3.now] },
       some (nextTradeId L)) := by
  obtain ⟨sig1, sym1, a1, sl1, tp1, cf1, rs1⟩ := d1
  obtain ⟨sig2, sym2, a2, sl2, tp2, cf2, rs2⟩ := d2
  obtain ⟨sig3, sym3, a3, sl3, tp3, cf3, rs3⟩ := d3
  obtain ⟨cor3, pos3, now3⟩ := e3
  simp only [Decision.signal, Decision.symbol,
    ExchangeEnv.create_order_result] at h1 hs1 h2 h3 hs3 he
  subst h1 hs1 h2 h3 hs3 he
  exact ⟨rfl, rfl⟩

/-- Witness for `C1_amended_buy_hold_buy_opens_on_third` at the concrete
inputs of the counterexample. -/
theorem C1_amended_buy_hold_buy_opens_on_third_witness :
    runDecisionCycles
        { pending_open_decisions := [], current_cycle := 0, ledger := [] }
        none 1 [inputBuyXYZ, inputHold] =
      runDecisionCycles
        { pending_open_decisions := [], current_cycle := 0, ledger := [] }
        none 1 [inputBuyXYZ] ∧
    runDecisionCycles
        { pending_open_decisions := [], current_cycle := 0, ledger := [] }
        none 1 [inputBuyXYZ, inputHold, inputBuyXYZ2] =
      ({ pending_open_decisions := [], current_cycle := 3,
         ledger := [confirmedOpenRowXYZ [] decisionBuyXYZ2 105 envOrderOk.now] },
       some (nextTradeId [])) := by
  have h := C1_amended_buy_hold_buy_opens_on_third [] decisionBuyXYZ
    decisionHold decisionBuyXYZ2 100 100 105 envOrderOk envOrderOk envOrderOk
    none 1 "okx-1" rfl rfl rfl rfl rfl rfl
  simpa using h

/-! ## Synthetic backfill -/

/-- Claim C6, counterexample: the fill synchronizer, given a closing fill
with no matching OPEN ledger record and a preceding opening fill of the same
side, inserts nothing — the ledger stays empty, no synthetic CLOSED record
appears. -/
theorem C6_counterexample_no_synthetic_record :
    (sync_filled_orders_from_api [] c6Fetch).1 = [] ∧
    ((sync_filled_orders_from_api [] c6Fetch).1.filter
      (fun r => r.status == "CLOSED")).length = 0 := by
  rw [sync_filled_orders_from_api_eq]
  exact ⟨rfl, rfl⟩

/-- Claim C6 as amended: the fill synchronizer never inserts a record (a
closing fill with no ledger match is simply dropped from the ledger's point
of view); the latest-preceding-opening-fill pairing lives in the separate
MCP-initialization routine, which records the paired trade into the MCP
memory — not the ledger — using the latest preceding unconsumed opening
fill's price and time as the entry, and drops a closing fill with no stored
opening fill. -/
theorem C6_amended_pairing_into_mcp_memory (L : Ledger)
    (fetch : String → List ApiOrder) (sym : String) (o1 o2 c : OkxFill)
    (hp1 : o1.fillPnl = 0) (hp2 : o2.fillPnl = 0) (hp3 : c.fillPnl ≠ 0)
    (hs1 : o1.posSide = "long") (hs2 : o2.posSide = "long")
    (hs3 : c.posSide = "long")
    (ht1 : o1.timestamp ≤ o2.timestamp) (ht2 : o2.timestamp ≤ c.timestamp) :
    (sync_filled_orders_from_api L fetch).1 = L ∧
    init_mcp_from_okx_trades sym [o1, o2, c] =
      [initRecordOf sym
        { entry_price := o2.price, amount := o2.amount,
          timestamp := o2.timestamp, side := "long" } c] ∧
    (initRecordOf sym
        { entry_price := o2.price, amount := o2.amount,
          timestamp := o2.timestamp, side := "long" } c).entry_price =
      o2.price ∧
    init_mcp_from_okx_trades sym [c] = [] := by
  have hsorted : List.Sorted (fun a b : OkxFill => a.timestamp ≤ b.timestamp)
      [o1, o2, c] := by
    simp [List.sorted_cons]
    exact ⟨⟨ht1, le_trans ht1 ht2⟩, ht2⟩
  have hc : (c.fillPnl == 0) = false := beq_eq_false_iff_ne.mpr hp3
  refine ⟨by rw [sync_filled_orders_from_api_eq], ?_, rfl, ?_⟩
  · rw [init_mcp_from_okx_trades, sortFills,
      List.Sorted.insertionSort_eq hsorted]
    obtain ⟨sd1, ps1, pr1, am1, ts1, fp1⟩ := o1
    obtain ⟨sd2, ps2, pr2, am2, ts2, fp2⟩ := o2
    obtain ⟨sd3, ps3, pr3, am3, ts3, fp3⟩ := c
    simp only at hp1 hp2 hs1 hs2 hs3 hc
    subst hp1 hp2 hs1 hs2 hs3
    simp [initMcpStep, dictInsert, dictLookup, dictErase, hc]
  · rw [init_mcp_from_okx_trades, sortFills]
    have : List.Sorted (fun a b : OkxFill => a.timestamp ≤ b.timestamp) [c] := by
      simp
    rw [List.Sorted.insertionSort_eq this]
    simp [initMcpStep, dictLookup, hc]

/-- Witness for `C6_amended_pairing_into_mcp_memory` at the concrete fills
`fillOpen1`, `fillOpen2`, `fillClose` over the empty ledger. -/
theorem C6_amended_pairing_into_mcp_memory_witness :
    (sync_filled_orders_from_api [] c6Fetch).1 = [] ∧
    init_mcp_from_okx_trades "SOL/USDT:USDT" [fillOpen1, fillOpen2, fillClose] =
      [initRecordOf "SOL/USDT:USDT"
        { entry_price := fillOpen2.price, amount := fillOpen2.amount,
          timestamp := fillOpen2.timestamp, side := "long" } fillClose] ∧
    (initRecordOf "SOL/USDT:USDT"
        { entry_price := fillOpen2.price, amount := fillOpen2.amount,
          timestamp := fillOpen2.timestamp, side := "long" } fillClose).entry_price =
      fillOpen2.price ∧
    init_mcp_from_okx_trades "SOL/USDT:USDT" [fillClose] = [] :=
  C6_amended_pairing_into_mcp_memory [] c6Fetch "SOL/USDT:USDT" fillOpen1
    fillOpen2 fillClose rfl rfl (by norm_num [fillClose]) rfl rfl rfl
    (by decide) (by decide)

end OkexBot
